import Mathlib

/-!
# Verification of the question-validation pipeline

A shallow embedding of the repository's two source files:

* `projects/research_single_question.py` — the `SaviyntQuestionValidator`
  class (task-prompt construction and the response normalizer
  `validate_question`) and the pre-save schema gate of
  `validate_question_by_id`;
* `projects/config/llm_config.py` — the `LLMFactory` model registry and
  `create_llm`.

Python values flowing through the pipeline are JSON-shaped, so they are
embedded as the inductive `Json` below.  Python `dict`s are association
lists whose operations (`dictGet`, `listSet`, `dictUpdate`) mirror CPython
dict semantics: assignment keeps insertion order and overwrites in place,
and lookup returns the most recent binding.  The standard-library calls the
source makes (`json.loads`, `json.dumps`, f-string conversion) are modelled
by executable Lean functions (`pyJsonLoads`, `pyJsonDumps`, `pyStr`)
following the documented behaviour of those library routines.
-/

set_option maxHeartbeats 1000000
set_option maxRecDepth 100000

namespace ResearchSingleQuestion

/-- A Python value produced or consumed by the JSON layer: `None`, `bool`,
`int`, `float` (kept exact as a mantissa and decimal exponent, since the code
never does arithmetic on numbers), `str`, `list`, `dict`. -/
inductive Json where
  | null
  | bool (b : Bool)
  | int (n : Int)
  | decimal (mantissa : Int) (exponent : Int)
  | str (s : String)
  | arr (items : List Json)
  | obj (fields : List (String × Json))

mutual

/-- Structural equality test for `Json` (Python `==` on these values). -/
def beqJson : Json → Json → Bool
  | .null, .null => true
  | .bool a, .bool b => a = b
  | .int a, .int b => a = b
  | .decimal m e, .decimal m' e' => m = m' && e = e'
  | .str a, .str b => a = b
  | .arr xs, .arr ys => beqJsonList xs ys
  | .obj xs, .obj ys => beqJsonFields xs ys
  | _, _ => false

/-- Elementwise equality test for lists of `Json`. -/
def beqJsonList : List Json → List Json → Bool
  | [], [] => true
  | x :: xs, y :: ys => beqJson x y && beqJsonList xs ys
  | _, _ => false

/-- Entrywise equality test for field lists. -/
def beqJsonFields : List (String × Json) → List (String × Json) → Bool
  | [], [] => true
  | (k, v) :: xs, (k', v') :: ys => k = k' && beqJson v v' && beqJsonFields xs ys
  | _, _ => false

end

/-- Python `==` membership tests on lists of these values use `beqJson`. -/
instance : BEq Json := ⟨beqJson⟩

/-- A Python `dict` with string keys, as passed around by the script. -/
abbrev Dict := List (String × Json)

/-- Python `d.get(k)` / `d[k]` lookup: the most recent binding for `k`. -/
def dictGet (d : Dict) (k : String) : Option Json :=
  d.foldl (fun acc p => if p.1 = k then some p.2 else acc) none

/-- Python `d[k] = v`: overwrite in place if the key exists (keeping
insertion order), otherwise append the new binding. -/
def listSet (d : Dict) (k : String) (v : Json) : Dict :=
  if (dictGet d k).isSome then
    d.map (fun p => if p.1 = k then (k, v) else p)
  else
    d ++ [(k, v)]

/-- Python `d.update(e)`: assign every binding of `e` into `d`, in order. -/
def dictUpdate (d e : Dict) : Dict :=
  e.foldl (fun acc p => listSet acc p.1 p.2) d

/-!
## `json.loads`

The script calls the standard library's `json.loads` (strict mode, default
flags) on the agent's final text and, for double-encoded `options`, on an
inner string.  `pyJsonLoads` below models it: the RFC 8259 grammar with
Python's whitespace set, escape set (including `\uXXXX` with surrogate-pair
combination), rejection of raw control characters inside strings, the
no-leading-zero number rule, and last-wins duplicate object keys.  Two
corners are simplified: the non-standard `NaN`/`Infinity` literals that
CPython additionally accepts are not modelled, and a *lone* surrogate
escape (a Python `str` artifact that Lean `Char` cannot hold) degrades to
`NUL`.  Neither corner is reachable from any concrete input used below.
-/

/-- JSON whitespace as accepted by `json.loads`. -/
def isWs (c : Char) : Bool := c = ' ' || c = '\t' || c = '\n' || c = '\r'

/-- Drop leading JSON whitespace. -/
def skipWs : List Char → List Char
  | [] => []
  | c :: cs => if isWs c then skipWs cs else c :: cs

/-- Split a character list into its leading run of decimal digits and the rest. -/
def digitSpan (cs : List Char) : List Char × List Char :=
  (cs.takeWhile Char.isDigit, cs.dropWhile Char.isDigit)

/-- Numeric value of a digit run. -/
def natOfDigits (ds : List Char) : Nat :=
  ds.foldl (fun a c => a * 10 + (c.toNat - 48)) 0

/-- Exponent tail after the `e`/`E` marker: optional sign, then one or more
digits; `none` means the exponent is malformed. -/
def readExpTail (r : List Char) : Option (Int × List Char) :=
  let (negExp, r1) : Bool × List Char :=
    match r with
    | '+' :: t => (false, t)
    | '-' :: t => (true, t)
    | _ => (false, r)
  match digitSpan r1 with
  | ([], _) => none
  | (ds, r2) =>
    some ((if negExp then -(natOfDigits ds : Int) else (natOfDigits ds : Int)), r2)

/-- Optional exponent part of a JSON number. The inner `Option` is `none`
when no exponent is present; the outer `none` flags a malformed one. -/
def readExp (cs : List Char) : Option (Option Int × List Char) :=
  match cs with
  | 'e' :: r =>
    match readExpTail r with
    | some (e, r2) => some (some e, r2)
    | none => none
  | 'E' :: r =>
    match readExpTail r with
    | some (e, r2) => some (some e, r2)
    | none => none
  | _ => some (none, cs)

/-- A JSON number per `json.loads`: `-?(0|[1-9][0-9]*)(\.[0-9]+)?([eE][-+]?[0-9]+)?`.
A bare integer yields `Json.int`; a fraction or exponent yields
`Json.decimal` (the exact value `mantissa * 10 ^ exponent`). -/
def parseNumber (cs : List Char) : Option (Json × List Char) :=
  let (neg, cs1) : Bool × List Char :=
    match cs with
    | '-' :: r => (true, r)
    | _ => (false, cs)
  match cs1 with
  | [] => none
  | c :: rest =>
    if c.isDigit = false then none
    else
      let (ip, cs2) := if c = '0' then ([c], rest) else digitSpan cs1
      let (frac, cs3) : Option (List Char) × List Char :=
        match cs2 with
        | '.' :: r => (some (digitSpan r).1, (digitSpan r).2)
        | _ => (none, cs2)
      if frac = some [] then none
      else
        match readExp cs3 with
        | none => none
        | some (expv, cs4) =>
          let mantAbs : Nat := natOfDigits (ip ++ frac.getD [])
          let mant : Int := if neg then -(mantAbs : Int) else (mantAbs : Int)
          match frac, expv with
          | none, none => some (Json.int mant, cs2)
          | _, _ => some (Json.decimal mant ((expv.getD 0) - ((frac.getD []).length : Int)), cs4)

/-- Single-character JSON escapes. -/
def unescapeChar (c : Char) : Option Char :=
  if c = '"' then some '"'
  else if c = '\\' then some '\\'
  else if c = '/' then some '/'
  else if c = 'b' then some (Char.ofNat 8)
  else if c = 'f' then some (Char.ofNat 12)
  else if c = 'n' then some '\n'
  else if c = 'r' then some '\r'
  else if c = 't' then some '\t'
  else none

/-- Value of one hexadecimal digit. -/
def hexDigitVal (c : Char) : Option Nat :=
  if c.isDigit then some (c.toNat - 48)
  else if 'a' ≤ c ∧ c ≤ 'f' then some (c.toNat - 87)
  else if 'A' ≤ c ∧ c ≤ 'F' then some (c.toNat - 55)
  else none

/-- Value of a four-hex-digit `\uXXXX` escape. -/
def hex4Val (a b c d : Char) : Option Nat :=
  match hexDigitVal a, hexDigitVal b, hexDigitVal c, hexDigitVal d with
  | some x, some y, some z, some w => some (((x * 16 + y) * 16 + z) * 16 + w)
  | _, _, _, _ => none

/-- Body of a JSON string after its opening quote, strict mode: raw control
characters are rejected, escapes are decoded, and a high surrogate escape
followed by a low one combines into the astral code point. -/
def parseStringBody : Nat → List Char → List Char → Option (String × List Char)
  | 0, _, _ => none
  | fuel + 1, cs, acc =>
    match cs with
    | [] => none
    | c :: rest =>
      if c = '"' then some (String.mk acc.reverse, rest)
      else if c = '\\' then
        match rest with
        | [] => none
        | e :: rest2 =>
          if e = 'u' then
            match rest2 with
            | a :: b :: c2 :: d :: rest3 =>
              (match hex4Val a b c2 d with
               | none => none
               | some n =>
                 if 0xD800 ≤ n ∧ n ≤ 0xDBFF then
                   match rest3 with
                   | '\\' :: 'u' :: a2 :: b2 :: c3 :: d2 :: rest4 =>
                     (match hex4Val a2 b2 c3 d2 with
                      | some m =>
                        if 0xDC00 ≤ m ∧ m ≤ 0xDFFF then
                          parseStringBody fuel rest4
                            (Char.ofNat (0x10000 + (n - 0xD800) * 0x400 + (m - 0xDC00)) :: acc)
                        else parseStringBody fuel rest3 (Char.ofNat n :: acc)
                      | none => parseStringBody fuel rest3 (Char.ofNat n :: acc))
                   | _ => parseStringBody fuel rest3 (Char.ofNat n :: acc)
                 else parseStringBody fuel rest3 (Char.ofNat n :: acc))
            | _ => none
          else
            match unescapeChar e with
            | some ch => parseStringBody fuel rest2 (ch :: acc)
            | none => none
      else if c.toNat < 32 then none
      else parseStringBody fuel rest (c :: acc)

mutual

/-- One JSON value starting at the head of `cs` (callers have already
skipped leading whitespace). -/
def parseValue : Nat → List Char → Option (Json × List Char)
  | 0, _ => none
  | fuel + 1, cs =>
    match cs with
    | [] => none
    | c :: rest =>
      if c = '{' then
        (match skipWs rest with
         | '}' :: r => some (Json.obj [], r)
         | r => parseMembers fuel r [])
      else if c = '[' then
        (match skipWs rest with
         | ']' :: r => some (Json.arr [], r)
         | r => parseItems fuel r [])
      else if c = '"' then
        (match parseStringBody (rest.length + 1) rest [] with
         | some (s, r) => some (Json.str s, r)
         | none => none)
      else if c = 't' then
        (match rest with
         | 'r' :: 'u' :: 'e' :: r => some (Json.bool true, r)
         | _ => none)
      else if c = 'f' then
        (match rest with
         | 'a' :: 'l' :: 's' :: 'e' :: r => some (Json.bool false, r)
         | _ => none)
      else if c = 'n' then
        (match rest with
         | 'u' :: 'l' :: 'l' :: r => some (Json.null, r)
         | _ => none)
      else if c = '-' ∨ c.isDigit = true then parseNumber cs
      else none

/-- One-or-more `"key": value` members of an object (the empty object is
handled by `parseValue`); duplicate keys overwrite, as in a Python dict. -/
def parseMembers : Nat → List Char → Dict → Option (Json × List Char)
  | 0, _, _ => none
  | fuel + 1, cs, acc =>
    match cs with
    | '"' :: r =>
      (match parseStringBody (r.length + 1) r [] with
       | none => none
       | some (key, r1) =>
         match skipWs r1 with
         | ':' :: r2 =>
           (match parseValue fuel (skipWs r2) with
            | none => none
            | some (v, r3) =>
              match skipWs r3 with
              | '}' :: r4 => some (Json.obj (listSet acc key v), r4)
              | ',' :: r4 => parseMembers fuel (skipWs r4) (listSet acc key v)
              | _ => none)
         | _ => none)
    | _ => none

/-- One-or-more comma-separated array items (the empty array is handled by
`parseValue`). -/
def parseItems : Nat → List Char → List Json → Option (Json × List Char)
  | 0, _, _ => none
  | fuel + 1, cs, acc =>
    match parseValue fuel cs with
    | none => none
    | some (v, r) =>
      match skipWs r with
      | ']' :: r2 => some (Json.arr (acc ++ [v]), r2)
      | ',' :: r2 => parseItems fuel (skipWs r2) (acc ++ [v])
      | _ => none

end

/-- Model of `json.loads` (strict mode, default flags): parse one value and
require only whitespace after it.  The fuel is generous: every unit of fuel
spent either consumes a character or is the single `[`-to-first-item step,
so `2 * length + 2` can never run out on an accepted input. -/
def pyJsonLoads (s : String) : Option Json :=
  let cs := skipWs s.data
  match parseValue (2 * cs.length + 2) cs with
  | some (v, rest) => if skipWs rest = [] then some v else none
  | none => none

/-!
## `json.dumps` and f-string conversion

The task prompt interpolates `question` fields directly (`str()`
conversion) and through `json.dumps(...)` / `json.dumps(..., indent=2)`.
These are modelled below with CPython's default flags: `ensure_ascii=True`
(non-ASCII and control characters become `\uXXXX`), item separator `", "`
and key separator `": "` (with indentation the item separator drops its
trailing space).  A `decimal` value is rendered in exponent notation — a
modelling approximation noted here because `repr` of a Python float is
float-dependent; no number with a fractional part occurs in any record this
development evaluates. -/

/-- Lowercase hexadecimal digit. -/
def hexDigitChar (n : Nat) : Char :=
  Char.ofNat (if n < 10 then 48 + n else 87 + n)

/-- Four lowercase hex digits, most significant first. -/
def hex4Str (n : Nat) : String :=
  String.mk [hexDigitChar (n / 4096 % 16), hexDigitChar (n / 256 % 16),
             hexDigitChar (n / 16 % 16), hexDigitChar (n % 16)]

/-- JSON escaping of one character under `ensure_ascii=True`. -/
def escChar (c : Char) : String :=
  if c = '"' then "\\\""
  else if c = '\\' then "\\\\"
  else if c = '\n' then "\\n"
  else if c = '\r' then "\\r"
  else if c = '\t' then "\\t"
  else if c.toNat = 8 then "\\b"
  else if c.toNat = 12 then "\\f"
  else if c.toNat < 32 then "\\u" ++ hex4Str c.toNat
  else if c.toNat < 127 then String.mk [c]
  else if c.toNat ≤ 0xFFFF then "\\u" ++ hex4Str c.toNat
  else
    "\\u" ++ hex4Str (0xD800 + (c.toNat - 0x10000) / 0x400) ++
    "\\u" ++ hex4Str (0xDC00 + (c.toNat - 0x10000) % 0x400)

/-- A JSON string literal for `s`, escaped as `json.dumps` does. -/
def dumpString (s : String) : String :=
  "\"" ++ String.join (s.data.map escChar) ++ "\""

mutual

/-- `json.dumps(v)` with default separators. -/
def pyJsonDumps : Json → String
  | .null => "null"
  | .bool true => "true"
  | .bool false => "false"
  | .int n => toString n
  | .decimal m e => toString m ++ "e" ++ toString e
  | .str s => dumpString s
  | .arr xs => "[" ++ dumpsItems xs ++ "]"
  | .obj fs => "\x7b" ++ dumpsFields fs ++ "\x7d"

/-- Comma-space separated array items. -/
def dumpsItems : List Json → String
  | [] => ""
  | [x] => pyJsonDumps x
  | x :: y :: xs => pyJsonDumps x ++ ", " ++ dumpsItems (y :: xs)

/-- Comma-space separated `"key": value` members. -/
def dumpsFields : List (String × Json) → String
  | [] => ""
  | [(k, v)] => dumpString k ++ ": " ++ pyJsonDumps v
  | (k, v) :: p :: fs => dumpString k ++ ": " ++ pyJsonDumps v ++ ", " ++ dumpsFields (p :: fs)

end

/-- `2 * lvl` spaces of indentation. -/
def indentStr (lvl : Nat) : String := String.mk (List.replicate (2 * lvl) ' ')

mutual

/-- `json.dumps(v, indent=2)` at nesting level `lvl`. -/
def dumpsInd : Nat → Json → String
  | _, .arr [] => "[]"
  | lvl, .arr xs => "[\n" ++ dumpsIndItems (lvl + 1) xs ++ "\n" ++ indentStr lvl ++ "]"
  | _, .obj [] => "\x7b\x7d"
  | lvl, .obj fs => "\x7b\n" ++ dumpsIndFields (lvl + 1) fs ++ "\n" ++ indentStr lvl ++ "\x7d"
  | _, v => pyJsonDumps v

/-- Indented array items, one per line. -/
def dumpsIndItems : Nat → List Json → String
  | _, [] => ""
  | lvl, [x] => indentStr lvl ++ dumpsInd lvl x
  | lvl, x :: y :: xs => indentStr lvl ++ dumpsInd lvl x ++ ",\n" ++ dumpsIndItems lvl (y :: xs)

/-- Indented object members, one per line. -/
def dumpsIndFields : Nat → List (String × Json) → String
  | _, [] => ""
  | lvl, [(k, v)] => indentStr lvl ++ dumpString k ++ ": " ++ dumpsInd lvl v
  | lvl, (k, v) :: p :: fs =>
    indentStr lvl ++ dumpString k ++ ": " ++ dumpsInd lvl v ++ ",\n" ++ dumpsIndFields lvl (p :: fs)

end

mutual

/-- Python `repr` of a JSON-shaped value (strings single-quoted; escape
corner cases inside `repr` of a string are not modelled — `repr` is only
reachable in the f-string when a question field is itself a container,
which no record evaluated here has). -/
def pyRepr : Json → String
  | .null => "None"
  | .bool true => "True"
  | .bool false => "False"
  | .int n => toString n
  | .decimal m e => toString m ++ "e" ++ toString e
  | .str s => "\x27" ++ s ++ "\x27"
  | .arr xs => "[" ++ pyReprItems xs ++ "]"
  | .obj fs => "\x7b" ++ pyReprFields fs ++ "\x7d"

/-- Comma-space separated `repr` items. -/
def pyReprItems : List Json → String
  | [] => ""
  | [x] => pyRepr x
  | x :: y :: xs => pyRepr x ++ ", " ++ pyReprItems (y :: xs)

/-- Comma-space separated `repr` members. -/
def pyReprFields : List (String × Json) → String
  | [] => ""
  | [(k, v)] => "\x27" ++ k ++ "\x27: " ++ pyRepr v
  | (k, v) :: p :: fs => "\x27" ++ k ++ "\x27: " ++ pyRepr v ++ ", " ++ pyReprFields (p :: fs)

end

/-- Python `str()` conversion as applied by an f-string placeholder. -/
def pyStr : Json → String
  | .null => "None"
  | .bool true => "True"
  | .bool false => "False"
  | .int n => toString n
  | .decimal m e => toString m ++ "e" ++ toString e
  | .str s => s
  | .arr xs => pyRepr (.arr xs)
  | .obj fs => pyRepr (.obj fs)

/-- Python truthiness of a JSON-shaped value. -/
def pyTruthy : Json → Bool
  | .null => false
  | .bool b => b
  | .int n => n != 0
  | .decimal m _ => m != 0
  | .str s => s != ""
  | .arr xs => !xs.isEmpty
  | .obj fs => !fs.isEmpty

/-!
## The task prompt (`research_single_question.py`, lines 71-180)

`validate_question` renders the question record into one f-string.  The
template is transcribed verbatim below, split at the two output-schema
blocks so that theorems can speak about them; concatenating
`taskMain ++ radioTemplate ++ checkboxTemplate ++ taskTail` reproduces the
f-string literal exactly.  Literal braces of the template (written `{{` and
`}}` in the Python source) appear here as the escapes `\x7b` and `\x7d`. -/

/-- The prompt text from its start through step 9's bullet list
(source lines 71-142), with the f-string placeholders filled in. -/
def taskMain (idv qv tv av ov : Json) (url : String) : String :=
  "\n        You are validating Saviynt documentation. Follow this EXACT process in order:\n" ++
  "\n" ++
  "        IMPORTANT: Follow these search steps IN ORDER:\n" ++
  "        1. FIRST: Search within docs.saviyntcloud.com\n" ++
  "           - Start at: " ++ url ++ "\n" ++
  "           - Use search bar with extracted key terms\n" ++
  "           - Use left navigation menu for context\n" ++
  "           - Try at least 3 different search terms before moving to step 2\n" ++
  "           - YOU MUST use the latest version of the documentation\n" ++
  "\n" ++
  "        2. IF NO ANSWER FOUND AFTER 20 STEPS: Try developers.saviynt.com\n" ++
  "           - Search the developer portal\n" ++
  "            - Check API documentation\n" ++
  "            - Look through Extensions and Connectors sections\n" ++
  "            - Try at least 2 different search approaches\n" ++
  "            - YOU MUST use the latest version of the documentation\n" ++
  "\n" ++
  "        3. ONLY IF STEPS 1 & 2 FAIL (after 40 steps): Use Google\n" ++
  "            - Restrict search to: site:saviyntcloud.com OR site:developers.saviynt.com\n" ++
  "            - Use specific technical terms from the question\n" ++
  "            - Focus on official Saviynt content only\n" ++
  "\n" ++
  "        4. ANALYZE QUESTION AND CONTEXT:\n" ++
  "            - Question ID: " ++ pyStr idv ++ "\n" ++
  "            - Question: \"" ++ pyStr qv ++ "\"\n" ++
  "            - Type: " ++ pyStr tv ++ " (radio=single answer, checkbox=multiple answers)\n" ++
  "            - Current Answer(s): " ++ pyJsonDumps av ++ "\n" ++
  "            - Extract key technical terms and features\n" ++
  "            - Options: " ++ pyJsonDumps ov ++ "\n" ++
  "\n" ++
  "        5. DOCUMENTATION SEARCH STRATEGY:\n" ++
  "            - Start at: " ++ url ++ "\n" ++
  "            - Use search bar with extracted key terms\n" ++
  "            - Use left navigation menu for context\n" ++
  "            - YOU MUST use the latest version of the documentation\n" ++
  "            - DO NOT use external search engines like Google\n" ++
  "\n" ++
  "        6. VALIDATE EACH OPTION:\n" ++
  "            Options to verify:\n" ++
  "            " ++ dumpsInd 0 ov ++ "\n" ++
  "\n" ++
  "            For each option:\n" ++
  "            - Find explicit documentation evidence supporting or refuting it\n" ++
  "            - Note the specific section where evidence is found\n" ++
  "            - For checkbox questions, validate each option independently\n" ++
  "            - Consider configuration requirements and limitations\n" ++
  "\n" ++
  "        7. CRAFT DETAILED EXPLANATION:\n" ++
  "            - Explain WHY correct answers are correct and incorrect answers are incorrect\n" ++
  "            - FOCUS on WHY the answer is correct or incorrect, not WHAT the answer is.\n" ++
  "            - For incorrect options, explain why they\x27re wrong\n" ++
  "            - Include configuration context if relevant\n" ++
  "            - Reference specific documentation sections\n" ++
  "            - For scenario questions, explain the reasoning for each option\n" ++
  "            - Provide a detailed, well-written explanation with a clear and concise answer, providing context where helpful for learning.\n" ++
  "            - For scenario-based questions, also provid detailed reasoning for each option.\n" ++
  "            - Included why secondary options (like delegation and manual selection) are less critical but still worth checking.\n" ++
  "            - Ensure the reference URL points to a specific relevant section of the documentation.\n" ++
  "            - DO NOT state that the answer is because the documentation says so, such as, \"The documentation indicates that...\" or \"...as mentioned in the documentation...\" since it is obvious that the documentation is the source of the answer.\n" ++
  "\n" ++
  "        8. VERIFY AND UPDATE REFERENCE:\n" ++
  "            - Ensure URL points to specific relevant section\n" ++
  "            - Include exact document title\n" ++
  "            - Verify URL is accessible and current version\n" ++
  "\n" ++
  "        9. RETURN AND FORMAT:\n" ++
  "            IMPORTANT:\n" ++
  "            - Return a properly formatted JSON object\n" ++
  "            - Use proper grammar and capitalization in all text\n" ++
  "            - Ensure options are returned as a proper array/list, not a string\n" ++
  "\n"

/-- The single-string-answer output schema shown for radio question types
(source lines 143-159). -/
def radioTemplate (idv tv : Json) : String :=
  "            Format the response exactly like this for radio question types:\n" ++
  "            \x7b\n" ++
  "                \"id\": " ++ pyStr idv ++ ",\n" ++
  "                \"question\": \"Question text with proper capitalization\",\n" ++
  "                \"options\": [\n" ++
  "                    \"Option 1\",\n" ++
  "                    \"Option 2\",\n" ++
  "                    \"Option 3\"\n" ++
  "                ],\n" ++
  "                \"answer\": \"Correct answer with proper capitalization\",\n" ++
  "                \"type\": \"" ++ pyStr tv ++ "\",\n" ++
  "                \"explanation\": \"Detailed explanation with proper grammar and capitalization\",\n" ++
  "                \"reference\": \x7b\n" ++
  "                    \"document\": \"Exact document title\",\n" ++
  "                    \"url\": \"Specific documentation URL\"\n" ++
  "                \x7d\n" ++
  "            \x7d\n"

/-- The string-array-answer output schema shown for checkbox question types
(source lines 160-179, beginning with the blank line that separates it from
the radio block). -/
def checkboxTemplate (idv tv : Json) : String :=
  "\n" ++
  "            Format the response exactly like this for checkbox question types:\n" ++
  "            \x7b\n" ++
  "                \"id\": " ++ pyStr idv ++ ",\n" ++
  "                \"question\": \"Question text with proper capitalization\",\n" ++
  "                \"options\": [\n" ++
  "                    \"Option 1\",\n" ++
  "                    \"Option 2\",\n" ++
  "                    \"Option 3\"\n" ++
  "                ],\n" ++
  "                \"answer\": [\n" ++
  "                    \"Correct answer(s) with proper capitalization\"\n" ++
  "                ],\n" ++
  "                \"type\": \"" ++ pyStr tv ++ "\",\n" ++
  "                \"explanation\": \"Detailed explanation with proper grammar and capitalization\",\n" ++
  "                \"reference\": \x7b\n" ++
  "                    \"document\": \"Exact document title\",\n" ++
  "                    \"url\": \"Specific documentation URL\"\n" ++
  "                \x7d\n" ++
  "            \x7d\n"

/-- The indentation before the closing triple quote (source line 180). -/
def taskTail : String := "            "

/-- `question.get('reference', {}).get('url') or "https://docs.saviyntcloud.com"`
(source lines 76 and 103).  Returns `none` when `reference` is present but
is not a dict, in which case `.get('url')` raises `AttributeError` and the
exception escapes `validate_question` (the prompt is built outside the
`try`). -/
def refUrlValue (q : Dict) : Option String :=
  match dictGet q "reference" with
  | none => some "https://docs.saviyntcloud.com"
  | some (Json.obj r) =>
    (match dictGet r "url" with
     | none => some "https://docs.saviyntcloud.com"
     | some v => some (if pyTruthy v then pyStr v else "https://docs.saviyntcloud.com"))
  | some _ => none

/-- The task f-string of `validate_question` (source lines 71-180); `none`
models the uncaught `KeyError`/`AttributeError` raised while rendering it
when a placeholder field is missing or `reference` is not a dict. -/
def buildTask (q : Dict) : Option String :=
  match dictGet q "id" with
  | none => none
  | some idv =>
    match dictGet q "question" with
    | none => none
    | some qv =>
      match dictGet q "type" with
      | none => none
      | some tv =>
        match dictGet q "answer" with
        | none => none
        | some av =>
          match dictGet q "options" with
          | none => none
          | some ov =>
            match refUrlValue q with
            | none => none
            | some url =>
              some (taskMain idv qv tv av ov url ++ radioTemplate idv tv ++
                    checkboxTemplate idv tv ++ taskTail)

/-!
## The response normalizer (`validate_question`, lines 182-247)

The agent call and its result are opaque inputs: `AgentRun` distinguishes a
raised exception (caught by the outer `except` at line 239), a `None`
result (line 196), and a result object.  A result object either exposes
`final_result()` — returning an optional string — or does not, in which
case the access raises `AttributeError`, caught at line 232. -/

/-- The object returned by `agent.run()`. -/
inductive AgentResult where
  /-- An `AgentHistoryList`; `final_result()` yields `none` or a string. -/
  | hist (finalText : Option String)
  /-- An object with no `final_result` attribute: the call raises
  `AttributeError`, which line 232 catches. -/
  | noFinal
deriving DecidableEq

/-- The outcome of `await agent.run()` as seen by the `try` at line 192. -/
inductive AgentRun where
  /-- `agent.run()` raised; the `except` at line 239 logs and falls through. -/
  | raised
  /-- `agent.run()` returned (`none` models Python `None`). -/
  | returned (r : Option AgentResult)
deriving DecidableEq

/-- The seven fields required of a parsed response (source line 220, and
again at line 328 before saving). -/
def required_fields : List String :=
  ["id", "question", "options", "answer", "type", "explanation", "reference"]

/-- Lines 210-217: if `response_data.get('options')` is a string, re-parse
it as JSON and assign the result back; `none` models the early
`return validated_question` when that inner parse fails. -/
def fixOptions (rd : Dict) : Option Dict :=
  match dictGet rd "options" with
  | some (Json.str s) =>
    (match pyJsonLoads s with
     | some v => some (listSet rd "options" v)
     | none => none)
  | _ => some rd

/-- Line 221: all seven required fields present in the response. -/
def hasRequiredFields (rd : Dict) : Bool :=
  required_fields.all (fun f => (dictGet rd f).isSome)

/-- Line 224: `isinstance(response_data['options'], list)`. -/
def optionsIsList (rd : Dict) : Bool :=
  match dictGet rd "options" with
  | some (Json.arr _) => true
  | _ => false

/-- Lines 210-228 applied to a successfully parsed response object: fix
double-encoded `options`, check required fields and the list type (a
failed check raises `ValueError`, caught at line 235), then
`validated_question.update(response_data)`. Every failure path returns the
untouched copy `q`. -/
def processParsed (q rd : Dict) : Dict :=
  match fixOptions rd with
  | none => q
  | some rd2 =>
    if hasRequiredFields rd2 = false then q
    else if optionsIsList rd2 = false then q
    else dictUpdate q rd2

/-- Lines 192-247: everything after the agent call.  `validated_question`
starts as `deepcopy(question)` (line 66), so each fallback path returns `q`
itself; a successful strict parse returns the merged record. -/
def validateCore (q : Dict) : AgentRun → Dict
  | AgentRun.raised => q
  | AgentRun.returned none => q
  | AgentRun.returned (some AgentResult.noFinal) => q
  | AgentRun.returned (some (AgentResult.hist none)) => q
  | AgentRun.returned (some (AgentResult.hist (some s))) =>
    if s = "" then q
    else
      match pyJsonLoads s with
      | none => q
      | some (Json.obj rd) => processParsed q rd
      | some _ => q

/-- `SaviyntQuestionValidator.validate_question` (lines 64-247) given the
agent-run outcome.  `none` models an exception escaping the method: the
prompt-construction lines 65-180 run outside the `try`, so a question
lacking a placeholder field (or whose `question` value is not a string —
line 69 calls `.lower()` on it) raises instead of returning. -/
def validate_question (q : Dict) (run : AgentRun) : Option Dict :=
  match dictGet q "question" with
  | some (Json.str _) =>
    (match buildTask q with
     | some _ => some (validateCore q run)
     | none => none)
  | _ => none

/-- The question record is well-formed enough for the prompt stage to
succeed: lines 65-180 raise no exception. -/
def promptOk (q : Dict) : Bool :=
  (match dictGet q "question" with
   | some (Json.str _) => true
   | _ => false) && (buildTask q).isSome

/-!
## The pre-save schema gate (`validate_question_by_id`, lines 320-358)

After `validate_question` returns, the driver builds the output document,
checks the record, and only then writes `validated_question_<id>.json`.
Every rejected check (and the `TypeError` a non-container `reference` value
would raise inside the membership test, caught by the `except` at line 360)
ends the run with no output file, modelled as `none`. -/

/-- Does the character list `pat` occur at the head of `l`? -/
def startsL : List Char → List Char → Bool
  | [], _ => true
  | _ :: _, [] => false
  | p :: ps, c :: cs => p = c && startsL ps cs

/-- Does the character list `pat` occur anywhere in `l`? -/
def seqContains (pat : List Char) : List Char → Bool
  | [] => startsL pat []
  | c :: cs => startsL pat (c :: cs) || seqContains pat cs

/-- Python `pat in s` on strings: substring containment. -/
def strContains (s pat : String) : Bool := seqContains pat.data s.data

/-- Python `key in v` for the values a JSON field can hold: key lookup on a
dict, substring test on a string, membership on a list; `none` models the
`TypeError` raised on the remaining types. -/
def pyIn (key : String) (v : Json) : Option Bool :=
  match v with
  | Json.obj r => some (dictGet r key).isSome
  | Json.str s => some (strContains s key)
  | Json.arr xs => some (xs.contains (Json.str key))
  | _ => none

/-- Lines 320-358 of `validate_question_by_id`: the output document is
`{"name": exam_name, "questions": [validated]}`; the schema checks run in
order (required fields, `reference` keys, `options` a list, `answer` shaped
by `type`), and only if all pass is the pair (file name, file content)
produced.  `none` means the save is skipped and no output file exists. -/
def validate_question_by_id_save (question_id : Int) (exam_name : String)
    (validated : Dict) : Option (String × Json) :=
  if hasRequiredFields validated = false then none
  else
    match dictGet validated "reference" with
    | none => none
    | some refv =>
      match pyIn "document" refv, pyIn "url" refv with
      | some hasDoc, some hasUrl =>
        if (hasDoc && hasUrl) = false then none
        else if optionsIsList validated = false then none
        else
          match dictGet validated "type", dictGet validated "answer" with
          | some tv, some av =>
            let answerOk :=
              if beqJson tv (Json.str "checkbox") then
                match av with
                | Json.arr _ => true
                | _ => false
              else
                match av with
                | Json.str _ => true
                | _ => false
            if answerOk then
              some ("validated_question_" ++ toString question_id ++ ".json",
                    Json.obj [("name", Json.str exam_name),
                              ("questions", Json.arr [Json.obj validated])])
            else none
          | _, _ => none
      | _, _ => none

/-!
## The markdown fallback convention (spec §4.3 step 4)

The spec describes a line-oriented fallback recovering `explanation` and
`reference` from labeled markdown.  No such scanner exists in the sources
under verification — the `except` arms at lines 232-237 only log — so the
*convention* (which texts the spec says the fallback would match, and what
explanation it would extract) is modelled from the spec's words, solely to
exhibit inputs. -/

/-- Split a character list into its newline-separated lines. -/
def splitLinesC (cs : List Char) : List (List Char) :=
  cs.foldr
    (fun c acc =>
      if c = '\n' then [] :: acc
      else
        match acc with
        | l :: ls => (c :: l) :: ls
        | [] => [[c]])
    [[]]

/-- Strip leading and trailing whitespace from a line. -/
def trimC (cs : List Char) : List Char :=
  ((cs.dropWhile isWs).reverse.dropWhile isWs).reverse

/-- Modelled from the spec: the labeled Explanation/Reference markdown
convention of §4.3 step 4 — a line beginning a labeled "Explanation" block
and a later "Reference" label.  The scanner this predicate describes is
absent from `research_single_question.py`. -/
def matchesMarkdownConvention (t : String) : Bool :=
  let ls := (splitLinesC t.data).map trimC
  ls.any (fun l => startsL "Explanation".data l) &&
  ls.any (fun l => startsL "Reference".data l)

/-- Modelled from the spec: the explanation the §4.3 step 4 fallback would
extract — the non-empty lines after the "Explanation" label up to the
"Reference" label, joined.  Absent from the sources; used only to name the
value the original record's `explanation` is compared against. -/
def markdownExplanation (t : String) : Option String :=
  let ls := (splitLinesC t.data).map trimC
  match ls.dropWhile (fun l => !(startsL "Explanation".data l)) with
  | [] => none
  | _ :: rest =>
    some (String.intercalate " "
      (((rest.takeWhile (fun l => !(startsL "Reference".data l))).filter
          (fun l => !l.isEmpty)).map String.mk))

/-!
## Concrete inputs evaluated by the theorems below -/

/-- A well-formed radio-type question record.  It carries one extra
bookkeeping field, `difficulty`, to observe what happens to fields the
agent's response does not produce. -/
def qEx : Dict :=
  [("id", Json.int 7),
   ("question", Json.str "What does Saviynt IGA manage?"),
   ("options", Json.arr [Json.str "Access", Json.str "Billing"]),
   ("answer", Json.str "Billing"),
   ("type", Json.str "radio"),
   ("explanation", Json.str "Original explanation."),
   ("reference", Json.obj [("document", Json.str "IGA Guide"),
                           ("url", Json.str "https://docs.saviyntcloud.com/iga")]),
   ("difficulty", Json.str "medium")]

/-- A complete strict-JSON agent response for `qEx`. -/
def respEx : String :=
  "\x7b\"id\": 7, \"question\": \"What does Saviynt IGA manage?\", " ++
  "\"options\": [\"Access\", \"Billing\"], \"answer\": \"Access\", " ++
  "\"type\": \"radio\", \"explanation\": \"IGA governs access.\", " ++
  "\"reference\": \x7b\"document\": \"IGA Admin Guide\", " ++
  "\"url\": \"https://docs.saviyntcloud.com/iga/access\"\x7d\x7d"

/-- The object `pyJsonLoads` yields from `respEx`. -/
def respExFields : Dict :=
  [("id", Json.int 7),
   ("question", Json.str "What does Saviynt IGA manage?"),
   ("options", Json.arr [Json.str "Access", Json.str "Billing"]),
   ("answer", Json.str "Access"),
   ("type", Json.str "radio"),
   ("explanation", Json.str "IGA governs access."),
   ("reference", Json.obj [("document", Json.str "IGA Admin Guide"),
                           ("url", Json.str "https://docs.saviyntcloud.com/iga/access")])]

/-- `respEx` with an extra field the prompt never asked for. -/
def respExtra : String :=
  "\x7b\"id\": 7, \"question\": \"What does Saviynt IGA manage?\", " ++
  "\"options\": [\"Access\", \"Billing\"], \"answer\": \"Access\", " ++
  "\"type\": \"radio\", \"explanation\": \"IGA governs access.\", " ++
  "\"reference\": \x7b\"document\": \"IGA Admin Guide\", " ++
  "\"url\": \"https://docs.saviyntcloud.com/iga/access\"\x7d, " ++
  "\"confidence\": \"high\"\x7d"

/-- The object `pyJsonLoads` yields from `respExtra`. -/
def respExtraFields : Dict :=
  respExFields ++ [("confidence", Json.str "high")]

/-- A parsed response missing a required field (`explanation`). -/
def respMissing : String :=
  "\x7b\"id\": 7, \"question\": \"Q\", \"options\": [\"A\"], \"answer\": \"A\", " ++
  "\"type\": \"radio\", \"reference\": \x7b\"document\": \"D\", \"url\": \"u\"\x7d\x7d"

/-- The object `pyJsonLoads` yields from `respMissing`. -/
def respMissingFields : Dict :=
  [("id", Json.int 7), ("question", Json.str "Q"),
   ("options", Json.arr [Json.str "A"]), ("answer", Json.str "A"),
   ("type", Json.str "radio"),
   ("reference", Json.obj [("document", Json.str "D"), ("url", Json.str "u")])]

/-- A response whose `options` is a JSON list double-encoded in a string. -/
def respDouble : String :=
  "\x7b\"id\": 7, \"question\": \"Q\", \"options\": \"[\\\"A\\\", \\\"B\\\"]\", " ++
  "\"answer\": \"A\", \"type\": \"radio\", \"explanation\": \"E\", " ++
  "\"reference\": \x7b\"document\": \"D\", \"url\": \"u\"\x7d\x7d"

/-- The object `pyJsonLoads` yields from `respDouble`. -/
def respDoubleFields : Dict :=
  [("id", Json.int 7), ("question", Json.str "Q"),
   ("options", Json.str "[\"A\", \"B\"]"), ("answer", Json.str "A"),
   ("type", Json.str "radio"), ("explanation", Json.str "E"),
   ("reference", Json.obj [("document", Json.str "D"), ("url", Json.str "u")])]

/-- A response whose double-encoded `options` string is not valid JSON. -/
def respDoubleBad : String :=
  "\x7b\"id\": 7, \"question\": \"Q\", \"options\": \"not json\", " ++
  "\"answer\": \"A\", \"type\": \"radio\", \"explanation\": \"E\", " ++
  "\"reference\": \x7b\"document\": \"D\", \"url\": \"u\"\x7d\x7d"

/-- The object `pyJsonLoads` yields from `respDoubleBad`. -/
def respDoubleBadFields : Dict :=
  [("id", Json.int 7), ("question", Json.str "Q"),
   ("options", Json.str "not json"), ("answer", Json.str "A"),
   ("type", Json.str "radio"), ("explanation", Json.str "E"),
   ("reference", Json.obj [("document", Json.str "D"), ("url", Json.str "u")])]

/-- An agent final text in the labeled Explanation/Reference markdown
convention, which is not valid JSON. -/
def mdText : String :=
  "Explanation:\nThe correct answer is Access because Saviynt IGA governs access.\n\n" ++
  "Reference:\nDocument: IGA Admin Guide\n" ++
  "URL: [IGA Admin Guide](https://docs.saviyntcloud.com/iga/access)"

/-- The tail of a markdown-fenced agent response. -/
def fencedRest : String := "\n\x7b\"id\": 7\x7d\n```"

/-- A record violating the answer-shape rule: `type` is `checkbox`
(the source's name for a multiple-answer question) but `answer` is a
scalar string. -/
def vBadAnswer : Dict :=
  [("id", Json.int 3), ("question", Json.str "Q"),
   ("options", Json.arr [Json.str "A", Json.str "B"]),
   ("answer", Json.str "A"),
   ("type", Json.str "checkbox"),
   ("explanation", Json.str "E"),
   ("reference", Json.obj [("document", Json.str "D"), ("url", Json.str "u")])]

/-- A record whose `reference` dict lacks the `url` key. -/
def vNoUrl : Dict :=
  [("id", Json.int 4), ("question", Json.str "Q"),
   ("options", Json.arr [Json.str "A"]),
   ("answer", Json.str "A"),
   ("type", Json.str "radio"),
   ("explanation", Json.str "E"),
   ("reference", Json.obj [("document", Json.str "D")])]

/-- The task prompt built for `qEx`. -/
def taskQEx : String :=
  taskMain (Json.int 7) (Json.str "What does Saviynt IGA manage?") (Json.str "radio")
    (Json.str "Billing") (Json.arr [Json.str "Access", Json.str "Billing"])
    "https://docs.saviyntcloud.com/iga"
  ++ radioTemplate (Json.int 7) (Json.str "radio")
  ++ checkboxTemplate (Json.int 7) (Json.str "radio")
  ++ taskTail

end ResearchSingleQuestion

namespace LlmConfig

/-- The `ModelConfig` dataclass of `config/llm_config.py` (lines 5-12).
`temperature` is a rational: the source stores the literal `0.2`, no
arithmetic is ever performed on it, and `0.2` is exact here. -/
structure ModelConfig where
  model_id : String
  base_url : String
  context_length : Int
  temperature : Rat
  supports_vision : Bool
  description : String
deriving DecidableEq

/-- A `ModelConfig` with the dataclass defaults, as every entry of `MODELS`
is built (each sets only `model_id` and `description`). -/
def mkModelConfig (model_id description : String) : ModelConfig :=
  ⟨model_id, "https://openrouter.ai/api/v1", 8192, 0.2, false, description⟩

/-- `LLMFactory.MODELS` (lines 18-51): the static registry. -/
def MODELS : List (String × ModelConfig) :=
  [("gpt-4o", mkModelConfig "gpt-4o" "GPT-4 via OpenRouter"),
   ("deepseek-chat", mkModelConfig "deepseek/deepseek-chat" "DeepSeek Chat model"),
   ("mistral-7b-v02", mkModelConfig "mistralai/mistral-7b-instruct-v0.2" "Mistral 7B Instruct v0.2"),
   ("llama-3-70b", mkModelConfig "meta-llama/llama-3.2-70b-instruct" "Llama 3 70B Instruct"),
   ("qwen-72b", mkModelConfig "qwen/qwen-72b-instruct" "Qwen 72B Instruct"),
   ("sonar-medium-online", mkModelConfig "perplexity/llama-3.1-sonar-medium-32k-online" "Sonar Medium with online access"),
   ("claude-3.5-sonnet", mkModelConfig "anthropic/claude-3.5-sonnet:beta" "Claude 3.5 Sonnet (self-moderated)"),
   ("claude-3.7-sonnet", mkModelConfig "anthropic/claude-3.7-sonnet:beta" "Claude 3.7 Sonnet (latest version)")]

/-- `model_name in cls.MODELS` / `cls.MODELS[model_name]`. -/
def lookupModel (name : String) : Option ModelConfig :=
  (MODELS.find? (fun p => p.1 = name)).map (fun p => p.2)

/-- The `ChatOpenAI` client as configured by `create_llm` (lines 83-89):
the model identifier, endpoint, `max_tokens` (from `context_length`) and
sampling temperature.  The remaining pass-through kwargs are empty in every
call this repository makes apart from `temperature`, which `create_llm`
pops explicitly. -/
structure ChatOpenAI where
  model : String
  base_url : String
  max_tokens : Int
  temperature : Rat
deriving DecidableEq

/-- The `ValueError` of lines 73-76. -/
inductive LLMError where
  | unknownModel (name : String)
deriving DecidableEq

/-- `LLMFactory.create_llm` (lines 53-89): an unknown name raises
`ValueError` before any client is constructed; a known name builds a
`ChatOpenAI` from the entry, with `temperature` overridable by the kwarg
(`kwargs.pop('temperature', config.temperature)`, line 81). -/
def create_llm (model_name : String) (temperatureKw : Option Rat) :
    Except LLMError ChatOpenAI :=
  match lookupModel model_name with
  | none => Except.error (LLMError.unknownModel model_name)
  | some config =>
    Except.ok ⟨config.model_id, config.base_url, config.context_length,
               temperatureKw.getD config.temperature⟩

end LlmConfig

namespace ResearchSingleQuestion

/-!
## Dict semantics lemmas -/

/-- Folding the lookup step over `d` from any accumulator: the last binding
in `d` wins, and the accumulator is returned only if `d` has none. -/
theorem dictGet_foldl (k : String) (d : Dict) :
    ∀ acc : Option Json,
      List.foldl (fun a p => if p.1 = k then some p.2 else a) acc d
        = (match dictGet d k with
           | some v => some v
           | none => acc) := by
  induction d with
  | nil => intro acc; simp [dictGet]
  | cons p d ih =>
    intro acc
    have hcons : dictGet (p :: d) k
        = (match dictGet d k with
           | some v => some v
           | none => if p.1 = k then some p.2 else none) := by
      show List.foldl _ none (p :: d) = _
      rw [List.foldl_cons]
      exact ih _
    rw [List.foldl_cons, ih, hcons]
    cases hd : dictGet d k with
    | some v => simp
    | none =>
      by_cases hk : p.1 = k
      · simp [hk]
      · simp [hk]

/-- Unfolding one binding of a lookup. -/
theorem dictGet_cons (k : String) (p : String × Json) (d : Dict) :
    dictGet (p :: d) k
      = (match dictGet d k with
         | some v => some v
         | none => if p.1 = k then some p.2 else none) := by
  show List.foldl _ none (p :: d) = _
  rw [List.foldl_cons]
  exact dictGet_foldl k d _

/-- In-place overwrite of key `k` by `v`: the lookup at `k` maps to `v`
when it was bound at all. -/
theorem dictGet_map_set (k : String) (v : Json) (d : Dict) :
    dictGet (d.map (fun p => if p.1 = k then (k, v) else p)) k
      = (dictGet d k).map (fun _ => v) := by
  induction d with
  | nil => simp [dictGet]
  | cons p d ih =>
    rw [List.map_cons, dictGet_cons, dictGet_cons, ih]
    cases hd : dictGet d k with
    | some w => simp
    | none =>
      by_cases hk : p.1 = k
      · simp [hk]
      · simp [hk]

/-- In-place overwrite of key `k` leaves lookups at other keys unchanged. -/
theorem dictGet_map_set_ne (k k' : String) (v : Json) (hne : k' ≠ k) (d : Dict) :
    dictGet (d.map (fun p => if p.1 = k then (k, v) else p)) k' = dictGet d k' := by
  induction d with
  | nil => simp
  | cons p d ih =>
    rw [List.map_cons, dictGet_cons, dictGet_cons, ih]
    cases hd : dictGet d k' with
    | some w => simp
    | none =>
      by_cases hk : p.1 = k
      · have : k ≠ k' := fun h => hne h.symm
        simp [hk, this]
      · simp [hk]

/-- Lookup after appending one binding. -/
theorem dictGet_append_single (d : Dict) (k k' : String) (v : Json) :
    dictGet (d ++ [(k, v)]) k'
      = (if k = k' then some v else dictGet d k') := by
  show List.foldl _ none (d ++ [(k, v)]) = _
  rw [List.foldl_append, List.foldl_cons, List.foldl_nil]
  rw [dictGet_foldl k' d]
  by_cases hk : k = k'
  · simp [hk]
  · cases hd : dictGet d k' with
    | some w => simp [hk, hd]
    | none => simp [hk, hd]

/-- Overwriting the looked-up key: the new value is returned. -/
theorem dictGet_listSet_self (d : Dict) (k : String) (v : Json) :
    dictGet (listSet d k v) k = some v := by
  unfold listSet
  by_cases hs : (dictGet d k).isSome = true
  · rw [if_pos hs, dictGet_map_set]
    cases hd : dictGet d k with
    | some w => simp
    | none => rw [hd] at hs; simp at hs
  · rw [if_neg hs, dictGet_append_single]
    simp

/-- Overwriting a different key leaves a lookup unchanged. -/
theorem dictGet_listSet_ne (d : Dict) (k k' : String) (v : Json) (hne : k' ≠ k) :
    dictGet (listSet d k v) k' = dictGet d k' := by
  unfold listSet
  by_cases hs : (dictGet d k).isSome = true
  · rw [if_pos hs, dictGet_map_set_ne k k' v hne]
  · rw [if_neg hs, dictGet_append_single]
    have : k ≠ k' := fun h => hne h.symm
    rw [if_neg this]

/-- `d.update(e)` semantics pointwise: keys bound in `e` take `e`'s value,
all other keys keep `d`'s. -/
theorem dictGet_dictUpdate (k : String) (e : Dict) :
    ∀ d : Dict,
      dictGet (dictUpdate d e) k
        = (match dictGet e k with
           | some v => some v
           | none => dictGet d k) := by
  induction e with
  | nil => intro d; simp [dictUpdate, dictGet]
  | cons p e ih =>
    intro d
    have hu : dictUpdate d (p :: e) = dictUpdate (listSet d p.1 p.2) e := by
      simp [dictUpdate]
    rw [hu, ih (listSet d p.1 p.2), dictGet_cons]
    cases he : dictGet e k with
    | some v => simp
    | none =>
      by_cases hk : p.1 = k
      · subst hk; simp [dictGet_listSet_self]
      · have : k ≠ p.1 := fun h => hk h.symm
        simp [hk, dictGet_listSet_ne d p.1 k p.2 this]

/-!
## Parser lemmas -/

/-- The empty string is not valid JSON. -/
theorem pyJsonLoads_empty : pyJsonLoads "" = none := rfl

/-- Skipping whitespace stops at a non-whitespace head. -/
theorem skipWs_not_ws (c : Char) (cs : List Char) (h : isWs c = false) :
    skipWs (c :: cs) = c :: cs := by
  simp [skipWs, h]

/-- No JSON value starts with a backtick (`U+0060`): markdown fencing makes
the strict parse fail outright. -/
theorem parseValue_grave (n : Nat) (cs : List Char) :
    parseValue n (Char.ofNat 96 :: cs) = none := by
  cases n with
  | zero => rfl
  | succ m =>
    show parseValue (m + 1) (Char.ofNat 96 :: cs) = none
    simp only [parseValue]
    rw [if_neg (by decide), if_neg (by decide), if_neg (by decide),
        if_neg (by decide), if_neg (by decide), if_neg (by decide),
        if_neg (by decide)]

/-- String concatenation concatenates the character data. -/
theorem string_data_append (a b : String) : (a ++ b).data = a.data ++ b.data := by
  cases a; cases b; rfl

/-- Any text that begins with a markdown code fence fails `json.loads`. -/
theorem pyJsonLoads_fenced (r : String) : pyJsonLoads ("```json" ++ r) = none := by
  have h7 : "```json".data
      = [Char.ofNat 96, Char.ofNat 96, Char.ofNat 96, 'j', 's', 'o', 'n'] := by decide
  have hws : skipWs ("```json" ++ r).data
      = Char.ofNat 96 :: ([Char.ofNat 96, Char.ofNat 96, 'j', 's', 'o', 'n'] ++ r.data) := by
    rw [string_data_append, h7]
    exact skipWs_not_ws _ _ (by decide)
  simp only [pyJsonLoads, hws, parseValue_grave]

/-!
## Bridging lemma: a well-formed question reaches the normalizer -/

/-- When the prompt stage raises nothing, `validate_question` returns the
normalizer's result. -/
theorem validate_question_of_promptOk (q : Dict) (run : AgentRun)
    (h : promptOk q = true) :
    validate_question q run = some (validateCore q run) := by
  unfold promptOk at h
  rw [Bool.and_eq_true] at h
  obtain ⟨h1, h2⟩ := h
  unfold validate_question
  cases hq : dictGet q "question" with
  | none => rw [hq] at h1; simp at h1
  | some v =>
    rw [hq] at h1
    cases v <;> simp at h1
    case str s =>
      cases hb : buildTask q with
      | none => rw [hb] at h2; simp at h2
      | some t => simp

/-!
## Normalizer path lemmas (shared) -/

/-- When the final text is not valid JSON, the normalizer keeps the copy of
the original (this also covers the empty text, which fails the parse). -/
theorem validateCore_parse_fail (q : Dict) (s : String)
    (hp : pyJsonLoads s = none) :
    validateCore q (AgentRun.returned (some (AgentResult.hist (some s)))) = q := by
  simp only [validateCore]
  by_cases hs : s = ""
  · rw [if_pos hs]
  · rw [if_neg hs, hp]

/-- The successful strict path: text parses to an object, the options fix
succeeds, both checks pass — the result is `q.update(response)`. -/
theorem validateCore_strict (q : Dict) (s : String) (rd rd2 : Dict)
    (hp : pyJsonLoads s = some (Json.obj rd))
    (hfix : fixOptions rd = some rd2)
    (hreq : hasRequiredFields rd2 = true)
    (hlist : optionsIsList rd2 = true) :
    validateCore q (AgentRun.returned (some (AgentResult.hist (some s))))
      = dictUpdate q rd2 := by
  have hs : ¬ s = "" := by
    intro h
    rw [h, pyJsonLoads_empty] at hp
    exact Option.noConfusion hp
  simp only [validateCore]
  rw [if_neg hs, hp]
  show processParsed q rd = dictUpdate q rd2
  unfold processParsed
  rw [hfix]
  simp [hreq, hlist]

/-- Any failed step of the strict path (inner options decode, required
fields, list check) keeps the copy of the original. -/
theorem validateCore_strict_fail (q : Dict) (s : String) (rd : Dict)
    (hp : pyJsonLoads s = some (Json.obj rd))
    (hfail : fixOptions rd = none
      ∨ ∃ rd2, fixOptions rd = some rd2
          ∧ (hasRequiredFields rd2 = false ∨ optionsIsList rd2 = false)) :
    validateCore q (AgentRun.returned (some (AgentResult.hist (some s)))) = q := by
  have hs : ¬ s = "" := by
    intro h
    rw [h, pyJsonLoads_empty] at hp
    exact Option.noConfusion hp
  simp only [validateCore]
  rw [if_neg hs, hp]
  show processParsed q rd = q
  unfold processParsed
  rcases hfail with h | ⟨rd2, h2, hbad⟩
  · rw [h]
  · rw [h2]
    rcases hbad with hb | hb
    · simp [hb]
    · by_cases hr : hasRequiredFields rd2 = false
      · simp [hr]
      · simp [hr, hb]

/-!
## The claims -/

/-- C1: for every original question record whose prompt stage succeeds and
every agent result whose final text parses as a JSON object passing the
field checks, `validate_question` returns the deep copy of the original
with the parsed fields overlaid (`dictUpdate q rd2`), and every field not
produced by the parse retains the original's value.  The argument record is
a pure value in this embedding, so it is itself untouched. -/
theorem validate_question_merge_overlay (q : Dict) (s : String) (rd rd2 : Dict)
    (hq : promptOk q = true)
    (hp : pyJsonLoads s = some (Json.obj rd))
    (hfix : fixOptions rd = some rd2)
    (hreq : hasRequiredFields rd2 = true)
    (hlist : optionsIsList rd2 = true) :
    validate_question q (AgentRun.returned (some (AgentResult.hist (some s))))
      = some (dictUpdate q rd2)
    ∧ ∀ k, dictGet rd2 k = none → dictGet (dictUpdate q rd2) k = dictGet q k := by
  constructor
  · rw [validate_question_of_promptOk q _ hq,
        validateCore_strict q s rd rd2 hp hfix hreq hlist]
  · intro k hk
    rw [dictGet_dictUpdate k rd2 q, hk]

/-- C1 witness: the full strict response `respEx` merged over `qEx`; the
extra original field `difficulty`, absent from the response, is retained. -/
theorem validate_question_merge_overlay_witness :
    promptOk qEx = true
    ∧ pyJsonLoads respEx = some (Json.obj respExFields)
    ∧ fixOptions respExFields = some respExFields
    ∧ hasRequiredFields respExFields = true
    ∧ optionsIsList respExFields = true
    ∧ validate_question qEx (AgentRun.returned (some (AgentResult.hist (some respEx))))
        = some (dictUpdate qEx respExFields)
    ∧ dictGet respExFields "difficulty" = none
    ∧ dictGet (dictUpdate qEx respExFields) "difficulty" = dictGet qEx "difficulty" := by
  refine ⟨rfl, rfl, rfl, rfl, rfl, ?_, rfl, ?_⟩
  · exact (validate_question_merge_overlay qEx respEx respExFields respExFields
      rfl rfl rfl rfl rfl).1
  · exact (validate_question_merge_overlay qEx respEx respExFields respExFields
      rfl rfl rfl rfl rfl).2 "difficulty" rfl

/-- C2 (amended): for every agent result whose text fails strict JSON
parsing — including text matching the labeled Explanation/Reference
markdown convention — this variant's normalizer returns the original record
unchanged: it has no markdown fallback, so not even `explanation` and
`reference` are updated. -/
theorem validate_question_no_markdown_fallback (q : Dict) (s : String)
    (hq : promptOk q = true)
    (_hmd : matchesMarkdownConvention s = true)
    (hp : pyJsonLoads s = none) :
    validate_question q (AgentRun.returned (some (AgentResult.hist (some s)))) = some q := by
  rw [validate_question_of_promptOk q _ hq, validateCore_parse_fail q s hp]

/-- C2 witness: the markdown text `mdText` against `qEx`. -/
theorem validate_question_no_markdown_fallback_witness :
    promptOk qEx = true
    ∧ matchesMarkdownConvention mdText = true
    ∧ pyJsonLoads mdText = none
    ∧ validate_question qEx (AgentRun.returned (some (AgentResult.hist (some mdText))))
        = some qEx :=
  ⟨rfl, rfl, rfl, validate_question_no_markdown_fallback qEx mdText rfl rfl rfl⟩

/-- C2 counterexample: `mdText` matches the markdown convention and fails
the strict parse, yet `validate_question` returns `qEx` identically — the
`explanation` field keeps the original value instead of being updated to
the explanation the convention carries, refuting the claimed fallback. -/
theorem validate_question_markdown_fallback_cex :
    matchesMarkdownConvention mdText = true
    ∧ pyJsonLoads mdText = none
    ∧ validate_question qEx (AgentRun.returned (some (AgentResult.hist (some mdText))))
        = some qEx
    ∧ markdownExplanation mdText
        = some "The correct answer is Access because Saviynt IGA governs access."
    ∧ dictGet qEx "explanation" = some (Json.str "Original explanation.")
    ∧ "Original explanation."
        ≠ "The correct answer is Access because Saviynt IGA governs access." :=
  ⟨rfl, rfl, rfl, rfl, rfl, by decide⟩

/-- C3: for a response object whose `options` field is a string, the
normalizer re-parses that string; if the inner decode fails the original
record is returned with nothing applied, and if it decodes to a list (and
the required-field check passes) the returned record's `options` is that
decoded list. -/
theorem validate_question_double_encoded_options (q : Dict) (s os : String) (rd : Dict)
    (hq : promptOk q = true)
    (hp : pyJsonLoads s = some (Json.obj rd))
    (hopt : dictGet rd "options" = some (Json.str os)) :
    (pyJsonLoads os = none →
      validate_question q (AgentRun.returned (some (AgentResult.hist (some s)))) = some q)
    ∧ (∀ xs : List Json, pyJsonLoads os = some (Json.arr xs) →
        hasRequiredFields (listSet rd "options" (Json.arr xs)) = true →
        validate_question q (AgentRun.returned (some (AgentResult.hist (some s))))
          = some (dictUpdate q (listSet rd "options" (Json.arr xs)))
        ∧ dictGet (dictUpdate q (listSet rd "options" (Json.arr xs))) "options"
            = some (Json.arr xs)) := by
  constructor
  · intro hos
    have hfix : fixOptions rd = none := by
      simp only [fixOptions, hopt, hos]
    rw [validate_question_of_promptOk q _ hq,
        validateCore_strict_fail q s rd hp (Or.inl hfix)]
  · intro xs hos hreq
    have hfix : fixOptions rd = some (listSet rd "options" (Json.arr xs)) := by
      simp only [fixOptions, hopt, hos]
    have hlist : optionsIsList (listSet rd "options" (Json.arr xs)) = true := by
      unfold optionsIsList
      rw [dictGet_listSet_self]
    constructor
    · rw [validate_question_of_promptOk q _ hq,
          validateCore_strict q s rd _ hp hfix hreq hlist]
    · rw [dictGet_dictUpdate "options" _ q, dictGet_listSet_self]

/-- C3 witness: `respDouble` (list inside a string) decodes and lands in
the merged record; `respDoubleBad` (garbage inside the string) leaves `qEx`
unchanged. -/
theorem validate_question_double_encoded_options_witness :
    pyJsonLoads respDouble = some (Json.obj respDoubleFields)
    ∧ dictGet respDoubleFields "options" = some (Json.str "[\"A\", \"B\"]")
    ∧ validate_question qEx (AgentRun.returned (some (AgentResult.hist (some respDouble))))
        = some (dictUpdate qEx
            (listSet respDoubleFields "options" (Json.arr [Json.str "A", Json.str "B"])))
    ∧ dictGet (dictUpdate qEx
          (listSet respDoubleFields "options" (Json.arr [Json.str "A", Json.str "B"])))
        "options" = some (Json.arr [Json.str "A", Json.str "B"])
    ∧ pyJsonLoads respDoubleBad = some (Json.obj respDoubleBadFields)
    ∧ dictGet respDoubleBadFields "options" = some (Json.str "not json")
    ∧ pyJsonLoads "not json" = none
    ∧ validate_question qEx (AgentRun.returned (some (AgentResult.hist (some respDoubleBad))))
        = some qEx := by
  have hGood := (validate_question_double_encoded_options qEx respDouble
      "[\"A\", \"B\"]" respDoubleFields rfl rfl rfl).2
      [Json.str "A", Json.str "B"] rfl rfl
  have hBad := (validate_question_double_encoded_options qEx respDoubleBad
      "not json" respDoubleBadFields rfl rfl rfl).1 rfl
  exact ⟨rfl, rfl, hGood.1, hGood.2, rfl, rfl, rfl, hBad⟩

/-- C4: an absent agent result (`None`), a missing final text, or an empty
final text each make `validate_question` return the original record
unchanged. -/
theorem validate_question_absent_unchanged (q : Dict) (h : promptOk q = true) :
    validate_question q (AgentRun.returned none) = some q
    ∧ validate_question q (AgentRun.returned (some (AgentResult.hist none))) = some q
    ∧ validate_question q (AgentRun.returned (some (AgentResult.hist (some "")))) = some q := by
  refine ⟨?_, ?_, ?_⟩ <;> rw [validate_question_of_promptOk q _ h] <;> rfl

/-- C4 witness: the three absence cases at `qEx`. -/
theorem validate_question_absent_unchanged_witness :
    promptOk qEx = true
    ∧ validate_question qEx (AgentRun.returned none) = some qEx
    ∧ validate_question qEx (AgentRun.returned (some (AgentResult.hist none))) = some qEx
    ∧ validate_question qEx (AgentRun.returned (some (AgentResult.hist (some "")))) = some qEx :=
  ⟨rfl, (validate_question_absent_unchanged qEx rfl).1,
   (validate_question_absent_unchanged qEx rfl).2.1,
   (validate_question_absent_unchanged qEx rfl).2.2⟩

/-- C5: a response object missing any of the seven required fields, or
whose `options` is not a list after decoding, is treated as a parse failure
and the original record is returned unchanged. -/
theorem validate_question_failed_checks_unchanged (q : Dict) (s : String) (rd rd2 : Dict)
    (hq : promptOk q = true)
    (hp : pyJsonLoads s = some (Json.obj rd))
    (hfix : fixOptions rd = some rd2)
    (hbad : hasRequiredFields rd2 = false ∨ optionsIsList rd2 = false) :
    validate_question q (AgentRun.returned (some (AgentResult.hist (some s)))) = some q := by
  rw [validate_question_of_promptOk q _ hq,
      validateCore_strict_fail q s rd hp (Or.inr ⟨rd2, hfix, hbad⟩)]

/-- C5 witness: `respMissing` (no `explanation`) leaves `qEx` unchanged. -/
theorem validate_question_failed_checks_unchanged_witness :
    promptOk qEx = true
    ∧ pyJsonLoads respMissing = some (Json.obj respMissingFields)
    ∧ fixOptions respMissingFields = some respMissingFields
    ∧ hasRequiredFields respMissingFields = false
    ∧ validate_question qEx (AgentRun.returned (some (AgentResult.hist (some respMissing))))
        = some qEx :=
  ⟨rfl, rfl, rfl, rfl,
   validate_question_failed_checks_unchanged qEx respMissing respMissingFields
     respMissingFields rfl rfl rfl (Or.inl rfl)⟩

/-- C7: a final text that begins with markdown ```json fencing fails the
strict JSON parse (nothing strips the fence), and `validate_question`
returns the original record unchanged rather than raising. -/
theorem validate_question_fenced_unchanged (q : Dict) (t r : String)
    (hq : promptOk q = true) (hfence : t = "```json" ++ r) :
    pyJsonLoads t = none
    ∧ validate_question q (AgentRun.returned (some (AgentResult.hist (some t)))) = some q := by
  subst hfence
  refine ⟨pyJsonLoads_fenced r, ?_⟩
  rw [validate_question_of_promptOk q _ hq,
      validateCore_parse_fail q _ (pyJsonLoads_fenced r)]

/-- C7 witness: a fenced JSON payload against `qEx`. -/
theorem validate_question_fenced_unchanged_witness :
    promptOk qEx = true
    ∧ pyJsonLoads ("```json" ++ fencedRest) = none
    ∧ validate_question qEx
        (AgentRun.returned (some (AgentResult.hist (some ("```json" ++ fencedRest)))))
        = some qEx :=
  ⟨rfl, (validate_question_fenced_unchanged qEx _ fencedRest rfl rfl).1,
   (validate_question_fenced_unchanged qEx _ fencedRest rfl rfl).2⟩

/-- C10: the merge overlays every key present in the parsed response onto
the copied record — including keys outside the seven required fields — so
any extra field the agent emits appears in the returned record. -/
theorem validate_question_overlays_every_parsed_key (q : Dict) (s : String) (rd rd2 : Dict)
    (hq : promptOk q = true)
    (hp : pyJsonLoads s = some (Json.obj rd))
    (hfix : fixOptions rd = some rd2)
    (hreq : hasRequiredFields rd2 = true)
    (hlist : optionsIsList rd2 = true) :
    ∃ res, validate_question q (AgentRun.returned (some (AgentResult.hist (some s))))
        = some res
      ∧ ∀ k v, dictGet rd2 k = some v → dictGet res k = some v := by
  refine ⟨dictUpdate q rd2, ?_, ?_⟩
  · rw [validate_question_of_promptOk q _ hq,
        validateCore_strict q s rd rd2 hp hfix hreq hlist]
  · intro k v hk
    rw [dictGet_dictUpdate k rd2 q, hk]

/-- C10 witness: the response `respExtra` carries the unrequested field
`confidence`, which the merge carries into the result. -/
theorem validate_question_overlays_every_parsed_key_witness :
    pyJsonLoads respExtra = some (Json.obj respExtraFields)
    ∧ dictGet respExtraFields "confidence" = some (Json.str "high")
    ∧ ∃ res, validate_question qEx
          (AgentRun.returned (some (AgentResult.hist (some respExtra)))) = some res
        ∧ ∀ k v, dictGet respExtraFields k = some v → dictGet res k = some v :=
  ⟨rfl, rfl,
   validate_question_overlays_every_parsed_key qEx respExtra respExtraFields
     respExtraFields rfl rfl rfl rfl rfl⟩

/-- C6: the pre-save schema gate rejects a record whose `type` is the
multiple-answer kind (`checkbox` in the source) while `answer` is a scalar
string, and rejects a record whose `reference` dict lacks the `url` key; on
any such rejection `validate_question_by_id` skips the save and produces no
output file (`none`: no file name, no file content). -/
theorem validate_question_by_id_save_rejects (qid : Int) (nm : String) (v : Dict)
    (hbad : (dictGet v "type" = some (Json.str "checkbox")
              ∧ ∃ sAns, dictGet v "answer" = some (Json.str sAns))
          ∨ (∃ r, dictGet v "reference" = some (Json.obj r) ∧ dictGet r "url" = none)) :
    validate_question_by_id_save qid nm v = none := by
  unfold validate_question_by_id_save
  split
  · rfl
  · split
    · rfl
    · next refv href =>
      split
      · next hasDoc hasUrl hdoc hurl =>
        rcases hbad with ⟨htype, sAns, hans⟩ | ⟨r, hrobj, hurl0⟩
        · by_cases hdu : (hasDoc && hasUrl) = false
          · rw [if_pos hdu]
          · rw [if_neg hdu]
            by_cases hol : optionsIsList v = false
            · rw [if_pos hol]
            · rw [if_neg hol, htype, hans]
              simp [beqJson]
        · rw [href] at hrobj
          have hrefv : refv = Json.obj r := Option.some.inj hrobj
          subst hrefv
          have hu : hasUrl = false := by
            simp only [pyIn] at hurl
            rw [hurl0] at hurl
            exact (Option.some.inj hurl).symm
          subst hu
          rw [if_pos (Bool.and_false hasDoc)]
      · rfl

/-- C6 witness: `vBadAnswer` (checkbox type with scalar-string answer) and
`vNoUrl` (reference without `url`) are both rejected with no output. -/
theorem validate_question_by_id_save_rejects_witness :
    validate_question_by_id_save 3 "Saviynt IGA L200B" vBadAnswer = none
    ∧ validate_question_by_id_save 4 "Saviynt IGA L200B" vNoUrl = none :=
  ⟨validate_question_by_id_save_rejects 3 "Saviynt IGA L200B" vBadAnswer
     (Or.inl ⟨rfl, "A", rfl⟩),
   validate_question_by_id_save_rejects 4 "Saviynt IGA L200B" vNoUrl
     (Or.inr ⟨[("document", Json.str "D")], rfl, rfl⟩)⟩

/-- C8 counterexample: for the concrete radio-type question `qEx`, the
built task prompt contains the checkbox (string-array-answer) template as
well as the radio (single-string-answer) one: the builder does not select a
template by `question.type`, it always embeds both. -/
theorem buildTask_template_selection_cex :
    dictGet qEx "type" = some (Json.str "radio")
    ∧ buildTask qEx
        = some (taskMain (Json.int 7) (Json.str "What does Saviynt IGA manage?")
              (Json.str "radio") (Json.str "Billing")
              (Json.arr [Json.str "Access", Json.str "Billing"])
              "https://docs.saviyntcloud.com/iga"
            ++ radioTemplate (Json.int 7) (Json.str "radio")
            ++ checkboxTemplate (Json.int 7) (Json.str "radio")
            ++ taskTail) :=
  ⟨rfl, rfl⟩

/-- C8 (amended): the task-prompt builder is deterministic — a pure
function of the question's `id`, `question`, `type`, `answer`, `options`
and `reference` fields — but it does not select between the two
output-schema templates: every built prompt contains both the radio
(single-string-answer) and the checkbox (string-array-answer) JSON shapes,
with `question.type` merely embedded literally inside each. -/
theorem buildTask_no_template_selection (q : Dict) (s : String)
    (h : buildTask q = some s) :
    (∃ idv tv a b, dictGet q "id" = some idv ∧ dictGet q "type" = some tv
      ∧ s = a ++ radioTemplate idv tv ++ checkboxTemplate idv tv ++ b)
    ∧ (∀ q' : Dict,
        dictGet q' "id" = dictGet q "id" →
        dictGet q' "question" = dictGet q "question" →
        dictGet q' "type" = dictGet q "type" →
        dictGet q' "answer" = dictGet q "answer" →
        dictGet q' "options" = dictGet q "options" →
        dictGet q' "reference" = dictGet q "reference" →
        buildTask q' = some s) := by
  unfold buildTask at h
  cases hid : dictGet q "id" with
  | none => rw [hid] at h; simp at h
  | some idv =>
  rw [hid] at h
  cases hq2 : dictGet q "question" with
  | none => rw [hq2] at h; simp at h
  | some qv =>
  rw [hq2] at h
  cases ht : dictGet q "type" with
  | none => rw [ht] at h; simp at h
  | some tv =>
  rw [ht] at h
  cases ha : dictGet q "answer" with
  | none => rw [ha] at h; simp at h
  | some av =>
  rw [ha] at h
  cases ho : dictGet q "options" with
  | none => rw [ho] at h; simp at h
  | some ov =>
  rw [ho] at h
  cases hu : refUrlValue q with
  | none => rw [hu] at h; simp at h
  | some url =>
  rw [hu] at h
  have hs : taskMain idv qv tv av ov url ++ radioTemplate idv tv ++
      checkboxTemplate idv tv ++ taskTail = s := Option.some.inj h
  subst hs
  constructor
  · exact ⟨idv, tv, taskMain idv qv tv av ov url, taskTail, rfl, rfl, rfl⟩
  · intro q' h1 h2 h3 h4 h5 h6
    have hu' : refUrlValue q' = refUrlValue q := by
      unfold refUrlValue
      rw [h6]
    unfold buildTask
    rw [h1, h2, h3, h4, h5, hu', hu]

/-- C8 witness: the amended statement evaluated at `qEx`. -/
theorem buildTask_no_template_selection_witness :
    buildTask qEx = some taskQEx
    ∧ ((∃ idv tv a b, dictGet qEx "id" = some idv ∧ dictGet qEx "type" = some tv
          ∧ taskQEx = a ++ radioTemplate idv tv ++ checkboxTemplate idv tv ++ b)
      ∧ (∀ q' : Dict,
          dictGet q' "id" = dictGet qEx "id" →
          dictGet q' "question" = dictGet qEx "question" →
          dictGet q' "type" = dictGet qEx "type" →
          dictGet q' "answer" = dictGet qEx "answer" →
          dictGet q' "options" = dictGet qEx "options" →
          dictGet q' "reference" = dictGet qEx "reference" →
          buildTask q' = some taskQEx)) :=
  ⟨rfl, buildTask_no_template_selection qEx taskQEx rfl⟩

end ResearchSingleQuestion

namespace LlmConfig

/-- C9: `create_llm` raises `ValueError` for every model name absent from
`MODELS` — in this embedding, returns the error without constructing any
client — and for every present name returns a `ChatOpenAI` configured from
that entry's model identifier and default parameters. -/
theorem create_llm_registry (name : String) :
    (lookupModel name = none →
      create_llm name none = Except.error (LLMError.unknownModel name))
    ∧ (∀ cfg, lookupModel name = some cfg →
        create_llm name none
          = Except.ok ⟨cfg.model_id, cfg.base_url, cfg.context_length, cfg.temperature⟩) := by
  constructor
  · intro h
    unfold create_llm
    rw [h]
  · intro cfg h
    unfold create_llm
    rw [h]
    rfl

/-- C9 witness: the known name `gpt-4o` yields the OpenRouter-configured
client with the registry defaults; the unknown name `gpt-5` errors. -/
theorem create_llm_registry_witness :
    create_llm "gpt-4o" none
        = Except.ok ⟨"gpt-4o", "https://openrouter.ai/api/v1", 8192, 0.2⟩
    ∧ create_llm "gpt-5" none = Except.error (LLMError.unknownModel "gpt-5") :=
  ⟨((create_llm_registry "gpt-4o").2 (mkModelConfig "gpt-4o" "GPT-4 via OpenRouter") rfl).trans rfl,
   (create_llm_registry "gpt-5").1 rfl⟩

end LlmConfig
